import Mathlib

/-! Formal verification of the Prachar.ai / ContentGenie content-generation design.

This file gives a shallow embedding, in Lean 4, of the behaviourally relevant parts of
the repository:

* the result aggregation of `handlePartialFailure` (src/design.md, Error Handling),
* the retry policy `retryWithBackoff` (src/design.md, Service Errors),
* the orchestrator `handleContentGeneration` (src/design.md, Content Orchestrator Lambda),
* the frontend submit handler `handleGenerate` (src/prachar-ai/src/app/page.tsx),
* the text generator `generateText` / `parseHashtags` (src/design.md, Text Generator Lambda),
* the storage-key construction of `generateImages` and `generateVideo`
  (src/design.md, Image/Video Generator Lambdas),
* the simulation-mode generator `generateMarketingCopy` (src/unnamed/part_000).

String-valued code (statuses, storage keys, prompts) is embedded with Lean
`String`s; JavaScript/Python string helpers (`trim`, `split`, `startsWith`,
whitespace `replace`) are embedded as character-list functions with the same
semantics so that all definitions evaluate inside the kernel.  Machine integers do
not overflow in any code considered here, so numbers are embedded as `Nat`.
Identifier generation (`generateUUID`) is embedded as a fresh supply: a counter that
never repeats, which is the guarantee the design relies on.  External services
(Bedrock, S3, DynamoDB) are embedded as explicit function parameters or effect
lists, following the contracts in the design document.

The file is laid out as all definitions first, then all theorems. -/

namespace ContentGenie

/-- Generated artifact as the aggregator sees it; the aggregation logic treats
assets as uninterpreted data, so only an identity and a kind tag are carried. -/
structure Asset where
  assetId : String
  kind : String
  deriving DecidableEq, Repr

/-- Outcome of one generator component as received by the orchestrator
(`results.images` / `results.videos` / `results.text` in design.md):
a success flag and the produced assets (`.data`). -/
structure ComponentResult where
  success : Bool
  data : List Asset
  deriving DecidableEq, Repr

/-- The three per-component results handed to `handlePartialFailure`
(src/design.md, "Partial Failure Handling"), plus the `results.error`
field read in its failure branch. -/
structure GenResults where
  images : ComponentResult
  videos : ComponentResult
  text : ComponentResult
  error : Option String
  deriving DecidableEq, Repr

/-- The `join(list, ", ")`-style helper used in the message construction. -/
def joinWith (sep : String) : List String → String
  | [] => ""
  | [x] => x
  | x :: y :: xs => x ++ sep ++ joinWith sep (y :: xs)

/-- The `successfulAssets` accumulator of `handlePartialFailure`
(design.md lines 1109-1125): the concatenation, in the fixed program order
images, videos, text, of the data of each component whose `success` flag is set. -/
def successfulAssets (results : GenResults) : List Asset :=
  (if results.images.success then results.images.data else [])
    ++ (if results.videos.success then results.videos.data else [])
    ++ (if results.text.success then results.text.data else [])

/-- The `failedComponents` accumulator of `handlePartialFailure`
(design.md lines 1110-1125), with the literal component labels of the source. -/
def failedComponentLabels (results : GenResults) : List String :=
  (if results.images.success then [] else ["images"])
    ++ (if results.videos.success then [] else ["videos"])
    ++ (if results.text.success then [] else ["captions and hashtags"])

/-- Return value of `handlePartialFailure`.  The source returns two differently
shaped dictionaries from its two branches; the embedding uses one record, with
the fields absent in a branch set to `[]` / `none` there. -/
structure AggregateOutcome where
  status : String
  assets : List Asset
  message : String
  retryableComponents : List String
  errorInfo : Option String
  deriving DecidableEq, Repr

/-- Embedding of `handlePartialFailure(results)` (src/design.md lines 1107-1140).
If any successful assets were collected the status is the string `"partial"`,
otherwise `"failed"`; the string `"complete"` does not occur in the function. -/
def handlePartialFailure (results : GenResults) : AggregateOutcome :=
  let ok := successfulAssets results
  let failed := failedComponentLabels results
  if ok.length > 0 then
    { status := "partial"
      assets := ok
      message := "Generated " ++ toString ok.length ++ " assets. Failed to generate: "
        ++ joinWith ", " failed
      retryableComponents := failed
      errorInfo := none }
  else
    { status := "failed"
      assets := []
      message := "Unable to generate any content. Please try again."
      retryableComponents := []
      errorInfo := results.error }

/-- A run of `handlePartialFailure` where all three components succeeded,
each with a nonempty asset list. -/
def allOkResults : GenResults :=
  { images := ⟨true, [⟨"img-1", "image"⟩]⟩
    videos := ⟨true, [⟨"vid-1", "video"⟩]⟩
    text := ⟨true, [⟨"cap-1", "caption"⟩]⟩
    error := none }

/-- Ambient state visible to a call: a clock and an I/O transcript.  The source
`handlePartialFailure` reads no ambient state and performs no I/O, so a call is
embedded as a state-passing function that returns the state unchanged. -/
structure World where
  clockMs : Nat
  ioTranscript : List String
  deriving DecidableEq, Repr

/-- One call of `handlePartialFailure` against an explicit world state. -/
def handlePartialFailureCall (w : World) (r : GenResults) : AggregateOutcome × World :=
  (handlePartialFailure r, w)

/-! Retry policy (src/design.md lines 1069-1080, `retryWithBackoff`). An operation
is embedded as a function from the attempt index (0-based, as in
`for attempt in range(maxRetries)`) to what that attempt does: return a value,
raise a retryable error, or raise a non-retryable (terminal) error. -/

/-- What one attempt of the wrapped operation does: `RetryableError` and
`NonRetryableError` are the two catch clauses of `retryWithBackoff`. -/
inductive AttemptResult (ε α : Type) where
  | ok (value : α)
  | retryable (e : ε)
  | terminal (e : ε)
  deriving DecidableEq, Repr

/-- Result of the whole retry loop: the value returned, or the error re-thrown. -/
inductive RetryResult (ε α : Type) where
  | returned (value : α)
  | thrown (e : ε)
  deriving DecidableEq, Repr

/-- Observable trace of one `retryWithBackoff` run: its result, the number of
attempts of the operation that were made, and the list of `sleep` delays (in ms)
in the order they happened. -/
structure RetryTrace (ε α : Type) where
  result : RetryResult ε α
  attempts : Nat
  delays : List Nat
  deriving DecidableEq, Repr

/-- One iteration of the `for attempt in range(maxRetries)` loop of
`retryWithBackoff` (design.md lines 1069-1080): try the operation; on success
return; on a non-retryable error re-throw; on a retryable error re-throw if this
was the last allowed attempt (`attempt >= maxRetries - 1`), otherwise sleep
`(2 ** attempt) * 100` ms and continue with the next attempt.  `fuel` bounds the
remaining iterations; it is `maxRetries` at the top-level call, and the `fuel = 0`
default is unreachable for `maxRetries ≥ 1` because the guard re-throws on the
final iteration. -/
def retryAux [Inhabited ε] (op : Nat → AttemptResult ε α) (maxRetries : Nat) :
    Nat → Nat → RetryTrace ε α
  | _, 0 => ⟨.thrown default, 0, []⟩
  | attempt, fuel + 1 =>
    match op attempt with
    | .ok v => ⟨.returned v, attempt + 1, []⟩
    | .terminal e => ⟨.thrown e, attempt + 1, []⟩
    | .retryable e =>
      if maxRetries - 1 ≤ attempt then ⟨.thrown e, attempt + 1, []⟩
      else
        let r := retryAux op maxRetries (attempt + 1) fuel
        ⟨r.result, r.attempts, 2 ^ attempt * 100 :: r.delays⟩

/-- Embedding of `retryWithBackoff(operation, maxRetries=3)`; every call site in
the repository uses the default `maxRetries = 3`. -/
def retryWithBackoff [Inhabited ε] (op : Nat → AttemptResult ε α) : RetryTrace ε α :=
  retryAux op 3 0 3

/-- An operation that fails with a retryable error on every attempt
(the error value records the attempt index). -/
def opAllRetry : Nat → AttemptResult Nat Unit := fun n => .retryable n

/-! String helpers of the JavaScript/Python sources, embedded over the character
list of a `String` so that they evaluate inside the kernel. -/

/-- Helper for `words`: accumulates the current word (reversed) while scanning. -/
def wordsAux : List Char → List Char → List String
  | [], acc => if acc.isEmpty then [] else [String.mk acc.reverse]
  | c :: cs, acc =>
    if c.isWhitespace then
      (if acc.isEmpty then wordsAux cs [] else String.mk acc.reverse :: wordsAux cs [])
    else wordsAux cs (c :: acc)

/-- Python `text.split()`: the maximal whitespace-free words of the text, in
order, with no empty words. -/
def words (s : String) : List String := wordsAux s.data []

/-- JavaScript `s.startsWith(p)`: `p` is a prefix of `s`. -/
def strStartsWith (s p : String) : Bool := p.data.isPrefixOf s.data

/-- JavaScript `topic.replace(/\s+/g, ...)` with an empty replacement: every
whitespace character is removed. -/
def stripWs (s : String) : String := String.mk (s.data.filter (fun c => !c.isWhitespace))

/-- JavaScript `s.trim()`: leading and trailing whitespace removed. -/
def jsTrim (s : String) : String :=
  String.mk (((s.data.dropWhile Char.isWhitespace).reverse.dropWhile Char.isWhitespace).reverse)

/-! Frontend submit handler (src/prachar-ai/src/app/page.tsx, `handleGenerate`,
lines 12-43). Its observable behaviour on a submission is either to show a
validation error without any request, or to POST the topic and business type to
`/api/generate`. -/

/-- Observable action of one `handleGenerate` invocation. -/
inductive FrontendAction where
  | showError (msg : String)
  | callApi (topic businessType : String)
  deriving DecidableEq, Repr

/-- Embedding of `handleGenerate` (page.tsx lines 12-43): the only validation is
`if (!topic.trim())` — a topic that trims to the empty string shows
"Please enter a campaign topic" and returns before the fetch; any other topic is
sent to the API.  No length check appears in the code. -/
def handleGenerate (topic businessType : String) : FrontendAction :=
  if jsTrim topic = "" then .showError "Please enter a campaign topic"
  else .callApi topic businessType

/-! Orchestrator (src/design.md, `handleContentGeneration`, lines 163-219) and the
aggregation helpers it calls. -/

/-- The three generation components. -/
inductive Component where
  | image
  | video
  | text
  deriving DecidableEq, Repr

/-- Failure payload of one component (code, message, timestamp — the
`GenerationError` fields other than the component). -/
structure FailureInfo where
  errorCode : String
  errorMessage : String
  timestamp : Nat
  deriving DecidableEq, Repr

/-- Outcome of one generation task: its assets, or a failure.  A task that
missed the shared deadline arrives as a failure with a timeout error code. -/
inductive TaskOutcome where
  | succeeded (assets : List Asset)
  | failed (f : FailureInfo)
  deriving DecidableEq, Repr

/-- `GenerationError` of the data model (design.md lines 726-731). -/
structure GenerationError where
  component : Component
  errorCode : String
  errorMessage : String
  timestamp : Nat
  deriving DecidableEq, Repr

/-- The fixed component order image, video, text used by the aggregation. -/
def orderedComponents : List Component := [.image, .video, .text]

/-- The outcome recorded for component `c` in a completion-ordered outcome
list: the first entry with that key, if any. -/
def outcomeFor (c : Component) (arrived : List (Component × TaskOutcome)) :
    Option TaskOutcome :=
  (arrived.find? (fun p => p.1 == c)).map Prod.snd

/-- Whether component `c` is recorded as failed. -/
def isFailedIn (c : Component) (arrived : List (Component × TaskOutcome)) : Bool :=
  match outcomeFor c arrived with
  | some (.failed _) => true
  | _ => false

/-- Whether component `c` is recorded as succeeded. -/
def isSucceededIn (c : Component) (arrived : List (Component × TaskOutcome)) : Bool :=
  match outcomeFor c arrived with
  | some (.succeeded _) => true
  | _ => false

/-- The `GenerationError` contributed by component `c`, if it failed. -/
def errorEntry (c : Component) (arrived : List (Component × TaskOutcome)) :
    Option GenerationError :=
  match outcomeFor c arrived with
  | some (.failed f) => some ⟨c, f.errorCode, f.errorMessage, f.timestamp⟩
  | _ => none

/-- Modelled from the spec: `collectErrors` is invoked at design.md line 208 but
is nowhere defined in the repository.  Per the spec (§4.4) it "collects one
GenerationError per failed component, in the fixed order image, video, text,
regardless of completion order".  The input is the completion-ordered outcome
list; the output walks the fixed component order. -/
def collectErrors (arrived : List (Component × TaskOutcome)) : List GenerationError :=
  orderedComponents.filterMap (fun c => errorEntry c arrived)

/-- Modelled from the spec: `determineStatus` is invoked at design.md line 207 but
is nowhere defined in the repository.  Per the spec (§4.4): complete iff all
three outcomes succeeded; partial iff at least one succeeded and at least one
failed; failed iff all three failed. -/
def determineStatus (arrived : List (Component × TaskOutcome)) : String :=
  if orderedComponents.all (fun c => isSucceededIn c arrived) then "complete"
  else if orderedComponents.any (fun c => isSucceededIn c arrived) then "partial"
  else "failed"

/-- The assets of component `c`, or `[]` — the `results.images || []` fallback
of the source. -/
def assetsOf (c : Component) (arrived : List (Component × TaskOutcome)) : List Asset :=
  match outcomeFor c arrived with
  | some (.succeeded as) => as
  | _ => []

/-- The incoming generation request (`ContentGenerationRequest`). -/
structure GenRequest where
  prompt : String
  userId : String
  platforms : List String
  deriving DecidableEq, Repr

/-- The project record written to DynamoDB at creation (design.md lines 170-177). -/
structure ProjectRecord where
  projectId : String
  userId : String
  prompt : String
  createdAt : Nat
  status : String
  deriving DecidableEq, Repr

/-- Side effects a run of the orchestrator can perform, in program order:
the DynamoDB create write, the three generator invocations, and the final
DynamoDB update. -/
inductive Effect where
  | dynamoPutItem (project : ProjectRecord)
  | invokeImageGenerator (prompt projectId : String) (count : Nat) (platforms : List String)
  | invokeVideoGenerator (prompt projectId : String)
  | invokeTextGenerator (prompt : String) (platforms : List String)
  | dynamoUpdateItem (projectId status : String) (completedAt : Nat)
  deriving DecidableEq, Repr

/-- Environment a run of the orchestrator draws on: the UUID it generates, the
clock at creation and at completion, and the per-component task outcomes that
the 30 s `awaitAll` hands back (a task that missed the deadline arrives as a
failed outcome with a timeout error; the list is in completion order). -/
structure OrchEnv where
  newUuid : String
  createdAt : Nat
  completedAt : Nat
  outcomes : List (Component × TaskOutcome)
  deriving DecidableEq, Repr

/-- The aggregated response of the orchestrator (design.md lines 201-209). -/
structure OrchResponse where
  projectId : String
  images : List Asset
  videos : List Asset
  texts : List Asset
  status : String
  errors : List GenerationError
  deriving DecidableEq, Repr

/-- Return value of the orchestrator: the early validation error, or the
aggregated response. -/
inductive OrchReturn where
  | errorReturn (msg : String)
  | respond (r : OrchResponse)
  deriving DecidableEq, Repr

/-- Embedding of `handleContentGeneration(request)` (design.md lines 163-219),
with the ordered list of side effects the run performs as second component.
A prompt shorter than 3 characters returns `error("Prompt too short")` before
any effect happens; otherwise the project is created, the three generators are
invoked, the outcomes are aggregated, and the project is finalized. -/
def handleContentGeneration (env : OrchEnv) (req : GenRequest) :
    OrchReturn × List Effect :=
  if req.prompt.length < 3 then
    (.errorReturn "Prompt too short", [])
  else
    let projectId := env.newUuid
    let project : ProjectRecord :=
      { projectId := projectId
        userId := req.userId
        prompt := req.prompt
        createdAt := env.createdAt
        status := "generating" }
    let results := env.outcomes
    let response : OrchResponse :=
      { projectId := projectId
        images := assetsOf .image results
        videos := assetsOf .video results
        texts := assetsOf .text results
        status := determineStatus results
        errors := collectErrors results }
    (.respond response,
      [ .dynamoPutItem project
      , .invokeImageGenerator req.prompt projectId 3 req.platforms
      , .invokeVideoGenerator req.prompt projectId
      , .invokeTextGenerator req.prompt req.platforms
      , .dynamoUpdateItem projectId response.status env.completedAt ])

/-- A completion-ordered outcome list: video timed out first, then the image
task failed, then the text task succeeded. -/
def arrivedSample : List (Component × TaskOutcome) :=
  [ (Component.video, .failed ⟨"TIMEOUT_ERROR", "deadline elapsed", 30⟩)
  , (Component.image, .failed ⟨"RATE_LIMIT_EXCEEDED", "throttled", 12⟩)
  , (Component.text, .succeeded [⟨"cap-1", "caption"⟩]) ]

/-- The same outcomes as `arrivedSample`, arriving in a different order. -/
def arrivedSampleReordered : List (Component × TaskOutcome) :=
  [ (Component.text, .succeeded [⟨"cap-1", "caption"⟩])
  , (Component.image, .failed ⟨"RATE_LIMIT_EXCEEDED", "throttled", 12⟩)
  , (Component.video, .failed ⟨"TIMEOUT_ERROR", "deadline elapsed", 30⟩) ]

/-! Text generator (src/design.md, `generateText` / `parseHashtags`, lines
371-455) and the simulation-mode generator (src/unnamed/part_000). -/

/-- Embedding of `parseHashtags(text)` (design.md lines 447-454): split the text
into whitespace-separated words and keep those that start with `#`. -/
def parseHashtags (text : String) : List String :=
  (words text).filter (fun w => strStartsWith w "#")

/-- `buildCaptionPrompt` (design.md lines 413-421). -/
def buildCaptionPrompt (userPrompt platform : String) : String :=
  if platform = "instagram" then
    "Generate 3 engaging Instagram captions for the following marketing concept: \""
      ++ userPrompt
      ++ "\". \nEach caption should be under 2200 characters, use emojis appropriately, and be optimized for Instagram engagement.\nFormat: Return 3 captions separated by \"---\""
  else
    "Generate 3 professional LinkedIn captions for the following marketing concept: \""
      ++ userPrompt
      ++ "\".\nEach caption should be under 3000 characters, maintain a professional tone, and include a call-to-action.\nFormat: Return 3 captions separated by \"---\""

/-- `buildHashtagPrompt` (design.md lines 423-429): the count ranges 5-10
(Instagram) and 3-5 (LinkedIn) are requested in the prompt text sent to the
model; no code checks the count of the parsed result. -/
def buildHashtagPrompt (userPrompt platform : String) : String :=
  if platform = "instagram" then
    "Generate 5-10 relevant Instagram hashtags for: \"" ++ userPrompt
      ++ "\".\nInclude a mix of popular and niche hashtags. Format: Return hashtags separated by spaces, each starting with #"
  else
    "Generate 3-5 professional LinkedIn hashtags for: \"" ++ userPrompt
      ++ "\".\nFocus on industry-relevant and professional hashtags. Format: Return hashtags separated by spaces, each starting with #"

/-- `getPlatformConstraints` (design.md lines 431-445); the source has branches
for exactly "instagram" and "linkedin", so the non-Instagram branch carries the
LinkedIn values. -/
structure PlatformConstraints where
  maxCaptionLength : Nat
  minHashtags : Nat
  maxHashtags : Nat
  maxTokens : Nat
  deriving DecidableEq, Repr

def getPlatformConstraints (platform : String) : PlatformConstraints :=
  if platform = "instagram" then ⟨2200, 5, 10, 1000⟩ else ⟨3000, 3, 5, 1500⟩

/-- Output of the text generator: per-platform caption responses and parsed
hashtag lists. -/
structure TextOutput where
  captions : List (String × String)
  hashtags : List (String × List String)
  deriving DecidableEq, Repr

/-- Embedding of `generateText(prompt, platforms)` (design.md lines 371-386).
The external Claude call (`callClaude`, itself wrapped in the retry loop) is a
parameter mapping a request prompt and platform to the model's response text.
For each platform, the caption response is stored as returned, and the hashtag
response is run through `parseHashtags`. -/
def generateText (callClaude : String → String → String) (prompt : String)
    (platforms : List String) : TextOutput :=
  { captions := platforms.map (fun p => (p, callClaude (buildCaptionPrompt prompt p) p))
    hashtags := platforms.map (fun p =>
      (p, parseHashtags (callClaude (buildHashtagPrompt prompt p) p))) }

/-- Clock state of the simulation-mode generator; its only effect is the
2-second `setTimeout` wait. -/
structure SimEnv where
  clockMs : Nat
  deriving DecidableEq, Repr

/-- The template string of `generateMarketingCopy` (src/unnamed/part_000 lines
8-25), built from the topic and business type alone; the final line interpolates
the topic with all whitespace removed as the first hashtag. -/
def marketingCopy (topic businessType : String) : String :=
  "📢 Namaste " ++ businessType ++ " Owner! 🚀\n\nHere is your campaign for " ++ topic ++
  ":\n\n✨ The Hook:\n\"Arrey wah! " ++ topic ++
  " is here! 😲 Don\x27t miss out!\"\n\n🎁 The Offer:\n\"Flat 20% OFF only for today! 🛍️✨\"\n\n🔥 Call to Action:\n\"Jaldi aao! Visit us before stocks run out! 🏃‍♂️💨\"\n\n---\n\n💡 Pro Tip: Share this on WhatsApp and Instagram for maximum reach in your local community!\n\n#"
  ++ stripWs topic ++ " #IndianBusiness #LocalShop #SpecialOffer"

/-- Embedding of `generateMarketingCopy(topic, businessType)` (src/unnamed/
part_000 lines 3-28): await a 2-second timer (the only interaction with the
environment — it advances the clock), then return the template string. -/
def generateMarketingCopy (env : SimEnv) (topic businessType : String) :
    String × SimEnv :=
  (marketingCopy topic businessType, ⟨env.clockMs + 2000⟩)

/-! Storage keys and identifiers (src/design.md, `generateImages` lines 239-303
and `generateVideo` lines 321-357). `generateUUID()` is embedded as a fresh
supply: the n-th identifier drawn is `uuidStart + n`. -/

/-- The shared `users/{userId}/projects/{projectId}/` part of every storage key
of one project (design.md S3 key pattern). -/
def keyBase (userId projectId : String) : String :=
  "users/" ++ userId ++ "/projects/" ++ projectId ++ "/"

/-- The project-relative part `images/{platform}_{i}.png` of an image key. -/
def imageRelKey (platform : String) (i : Nat) : String :=
  "images/" ++ platform ++ "_" ++ toString i ++ ".png"

/-- The image S3 key of design.md line 275:
`users/{userId}/projects/{projectId}/images/{platform}_{i}.png`. -/
def imageKey (userId projectId platform : String) (i : Nat) : String :=
  keyBase userId projectId ++ imageRelKey platform i

/-- The video S3 key of design.md line 344:
`users/{userId}/projects/{projectId}/videos/video_0.mp4`. -/
def videoKey (userId projectId : String) : String :=
  keyBase userId projectId ++ "videos/video_0.mp4"

/-- `getPlatformDimensions` (design.md lines 298-303); the source has branches
for exactly "instagram" and "linkedin", so the non-Instagram branch carries the
LinkedIn dimensions. -/
def getPlatformDimensions (platform : String) : Nat × Nat :=
  if platform = "instagram" then (1080, 1080) else (1200, 627)

/-- One image asset produced by `generateImages`: identity, S3 key, derived
thumbnail key (`{s3Key}_thumb.png`), dimensions, platform. -/
structure ImageAssetRec where
  assetId : Nat
  s3Key : String
  thumbnailKey : String
  width : Nat
  height : Nat
  platform : String
  deriving DecidableEq, Repr

/-- Embedding of the asset construction of `generateImages(prompt, projectId,
count, platforms)` (design.md lines 239-296): the nested loops
`for i in range(count)` / `for platform in platforms` build one image and one
thumbnail per (i, platform), with the keys of lines 275 and 280 and a fresh
`assetId` per image. -/
def generateImages (userId projectId : String) (count : Nat)
    (platforms : List String) (uuidStart : Nat) : List ImageAssetRec :=
  (((List.range count).flatMap (fun i => platforms.map (fun p => (i, p)))).enum).map
    (fun e =>
      { assetId := uuidStart + e.1
        s3Key := imageKey userId projectId e.2.2 e.2.1
        thumbnailKey := imageKey userId projectId e.2.2 e.2.1 ++ "_thumb.png"
        width := (getPlatformDimensions e.2.2).1
        height := (getPlatformDimensions e.2.2).2
        platform := e.2.2 })

/-- All S3 keys written for the images of a project: the image keys and their
thumbnail keys. -/
def projectStorageKeys (imgs : List ImageAssetRec) : List String :=
  imgs.map ImageAssetRec.s3Key ++ imgs.map ImageAssetRec.thumbnailKey

/-! Video generator (src/design.md, `generateVideo`, lines 321-357). -/

/-- Result of an external service call (`Result<payload, ServiceError>`). -/
inductive ServiceResult (α : Type) where
  | ok (value : α)
  | error (msg : String)
  deriving DecidableEq, Repr

/-- `Python randomInt(lo, hi)`: an integer in `[lo, hi]`, both ends included,
drawn from the seed. -/
def randomInt (lo hi seed : Nat) : Nat := lo + seed % (hi + 1 - lo)

/-- The Bedrock video request body (design.md lines 326-335): the fields the
code fills; `video_length` is drawn by `randomInt(3, 10)` from a fresh seed. -/
structure VideoRequest where
  promptText : String
  cfgScale : Nat
  steps : Nat
  seed : Nat
  videoLength : Nat
  deriving DecidableEq, Repr

/-- The request `generateVideo` sends on an attempt seeded with `seed`. -/
def videoRequest (prompt : String) (seed : Nat) : VideoRequest :=
  { promptText := prompt
    cfgScale := 7
    steps := 30
    seed := seed
    videoLength := randomInt 3 10 seed }

/-- The external service's returned video payload as the code observes it:
`extractDuration(videoData)` reads the actual duration of the returned video.
No code compares it with the requested `video_length`. -/
structure VideoData where
  durationSeconds : Nat
  deriving DecidableEq, Repr

/-- `extractDuration(videoData)` (design.md line 354). -/
def extractDuration (vd : VideoData) : Nat := vd.durationSeconds

/-- The `while retries < 3` loop of `generateVideo` (design.md lines 323-341):
try the Bedrock call with a freshly seeded request; on success break; on error
increment `retries`, return the error if `retries >= 3`, otherwise sleep and
try again.  `rng` maps the attempt index to that attempt's fresh seed; `fuel`
is 3 at the top-level call and the `fuel = 0` default is unreachable because
the `retries >= 3` check returns first. -/
def videoCallLoop (bedrock : VideoRequest → ServiceResult VideoData)
    (prompt : String) (rng : Nat → Nat) : Nat → Nat → ServiceResult VideoData
  | _, 0 => .error "retries exhausted"
  | attempt, fuel + 1 =>
    match bedrock (videoRequest prompt (rng attempt)) with
    | .ok vd => .ok vd
    | .error e =>
      if 3 ≤ attempt + 1 then .error e
      else videoCallLoop bedrock prompt rng (attempt + 1) fuel

/-- The video asset returned by `generateVideo` (design.md lines 350-356). -/
structure VideoAssetRec where
  assetId : Nat
  s3Key : String
  durationSeconds : Nat
  format : String
  deriving DecidableEq, Repr

/-- Embedding of `generateVideo(prompt, projectId)` (design.md lines 321-357):
call Bedrock through the retry loop; on success store the video under the fixed
key and return the asset whose `duration` is extracted from the returned video
data, with a fresh `assetId` (`uuid`). -/
def generateVideo (bedrock : VideoRequest → ServiceResult VideoData)
    (userId projectId prompt : String) (rng : Nat → Nat) (uuid : Nat) :
    ServiceResult VideoAssetRec :=
  match videoCallLoop bedrock prompt rng 0 3 with
  | .error e => .error e
  | .ok vd =>
    .ok { assetId := uuid
          s3Key := videoKey userId projectId
          durationSeconds := extractDuration vd
          format := "mp4" }

/-! Theorems. -/

/-- Claim C2, counterexample: in `allOkResults` all three components succeeded,
yet `handlePartialFailure` reports status `"partial"`, not `"complete"` — the
code never returns `"complete"`, so `status = complete iff all three succeeded`
fails at this input. -/
theorem handlePartialFailure_all_success_not_complete :
    allOkResults.images.success = true
      ∧ allOkResults.videos.success = true
      ∧ allOkResults.text.success = true
      ∧ (handlePartialFailure allOkResults).status = "partial"
      ∧ (handlePartialFailure allOkResults).status ≠ "complete" := by
  decide

/-- Claim C2, amended: `handlePartialFailure` returns status `"partial"` exactly
when the merged asset list of the succeeded components is nonempty, `"failed"`
exactly when it is empty (in particular whenever all three components failed,
but also when components succeeded with zero assets), and never `"complete"`. -/
theorem handlePartialFailure_status_characterisation (r : GenResults) :
    ((handlePartialFailure r).status = "partial" ↔ successfulAssets r ≠ [])
      ∧ ((handlePartialFailure r).status = "failed" ↔ successfulAssets r = [])
      ∧ (handlePartialFailure r).status ≠ "complete" := by
  by_cases h : successfulAssets r = []
  · simp [handlePartialFailure, h]
  · have hpos : 0 < (successfulAssets r).length := List.length_pos.mpr h
    simp [handlePartialFailure, h, hpos]

/-- Claim C8: the aggregator's combine step is pure.  Calling it a second time on
the same outcome set (in the world left behind by the first call) yields an
identical result record — same assets, status, message and errors — the world is
unchanged by the two calls, and the result does not depend on the world at all. -/
theorem handlePartialFailure_pure (w : World) (r : GenResults) :
    (handlePartialFailureCall (handlePartialFailureCall w r).2 r).1
        = (handlePartialFailureCall w r).1
      ∧ (handlePartialFailureCall (handlePartialFailureCall w r).2 r).2 = w
      ∧ (∀ w' : World, (handlePartialFailureCall w' r).1 = (handlePartialFailureCall w r).1) :=
  ⟨rfl, rfl, fun _ => rfl⟩

/-- Claim C3, counterexample: an operation that raises a retryable error on every
attempt exhausts all 3 attempts, and the delays that actually occur are
100 ms and 200 ms only — the schedule `100/200/400 ms` asserted by the claim
never happens, because the loop re-throws on the third attempt instead of
sleeping 400 ms; the last error is re-thrown unchanged (no exhaustion tag). -/
theorem retry_delay_schedule_counterexample :
    (retryWithBackoff opAllRetry).attempts = 3
      ∧ (retryWithBackoff opAllRetry).delays = [100, 200]
      ∧ ¬((retryWithBackoff opAllRetry).delays = [100, 200, 400])
      ∧ (retryWithBackoff opAllRetry).result = .thrown 2 := by
  decide

/-- Claim C3, amended: `retryWithBackoff` attempts the operation at least once and
at most 3 times; the delays slept are the prefix of `[100, 200]` with one entry
per retry actually taken (so the k-th retry is preceded by a `100·2^(k-1)` ms
delay, and a 400 ms delay never occurs); a terminal-classified error is re-thrown
immediately, ending the run; and when all 3 attempts fail retryably the third
error is re-thrown unchanged. -/
theorem retryWithBackoff_policy {ε α : Type} [Inhabited ε] (op : Nat → AttemptResult ε α) :
    1 ≤ (retryWithBackoff op).attempts
      ∧ (retryWithBackoff op).attempts ≤ 3
      ∧ (retryWithBackoff op).delays
          = List.take ((retryWithBackoff op).attempts - 1) [100, 200]
      ∧ (∀ e, op 0 = .terminal e → retryWithBackoff op = ⟨.thrown e, 1, []⟩)
      ∧ (∀ e₀ e, op 0 = .retryable e₀ → op 1 = .terminal e →
          retryWithBackoff op = ⟨.thrown e, 2, [100]⟩)
      ∧ (∀ e₀ e₁ e, op 0 = .retryable e₀ → op 1 = .retryable e₁ → op 2 = .terminal e →
          retryWithBackoff op = ⟨.thrown e, 3, [100, 200]⟩)
      ∧ (∀ e₀ e₁ e₂, op 0 = .retryable e₀ → op 1 = .retryable e₁ → op 2 = .retryable e₂ →
          retryWithBackoff op = ⟨.thrown e₂, 3, [100, 200]⟩) := by
  rcases h0 : op 0 with v0 | e0 | e0 <;>
    rcases h1 : op 1 with v1 | e1 | e1 <;>
      rcases h2 : op 2 with v2 | e2 | e2 <;>
        simp [retryWithBackoff, retryAux, h0, h1, h2]

/-- Claim C3, witness for `retryWithBackoff_policy`: on the always-retryable
operation, the policy theorem yields the concrete exhaustion trace. -/
theorem retryWithBackoff_policy_witness :
    retryWithBackoff opAllRetry = ⟨.thrown 2, 3, [100, 200]⟩ :=
  (retryWithBackoff_policy opAllRetry).2.2.2.2.2.2 0 1 2 rfl rfl rfl

/-- Claim C1 (code bug): design.md Property 1 — and the spec — require the
validation to reject prompts of length < 3 and accept prompts of length ≥ 3,
and design.md line 46 says the frontend validates "min 3 characters"; but
`handleGenerate` in page.tsx only checks `!topic.trim()`.  The 2-character
topic "ab" passes its validation and the API request is made, while the
3-character all-whitespace topic is rejected. -/
theorem handleGenerate_validation_diverges :
    handleGenerate "ab" "Retail" = .callApi "ab" "Retail"
      ∧ "ab".length < 3
      ∧ handleGenerate "   " "Retail" = .showError "Please enter a campaign topic"
      ∧ 3 ≤ "   ".length := by
  decide

/-- Claim C6: a request whose prompt fails the length-3 validation makes the
orchestrator return the validation error immediately with an empty effect list:
no project record is written to the metadata store and no generator adapter is
invoked. -/
theorem handleContentGeneration_validation_no_side_effects
    (env : OrchEnv) (req : GenRequest) (h : req.prompt.length < 3) :
    handleContentGeneration env req = (.errorReturn "Prompt too short", []) := by
  simp [handleContentGeneration, h]

/-- Claim C6, witness: the 2-character prompt "ab" of the spec's scenario. -/
theorem handleContentGeneration_validation_witness :
    handleContentGeneration ⟨"proj-1", 0, 30, []⟩ ⟨"ab", "user-123", ["instagram"]⟩
      = (.errorReturn "Prompt too short", []) :=
  handleContentGeneration_validation_no_side_effects _ _ (by decide)

/-- Key-uniqueness of `find?` under a keyed predicate: permuting a list whose
keys are distinct does not change the entry found for a key. -/
lemma findEntry_perm (c : Component) :
    ∀ {l l' : List (Component × TaskOutcome)}, l.Perm l' →
      (l.map Prod.fst).Nodup →
      l.find? (fun p => p.1 == c) = l'.find? (fun p => p.1 == c) := by
  intro l l' hp
  induction hp with
  | nil => intro _; rfl
  | cons x hperm ih =>
      intro hd
      rw [List.map_cons] at hd
      by_cases hx : x.1 = c
      · rw [List.find?_cons_of_pos _ (by simpa using hx),
          List.find?_cons_of_pos _ (by simpa using hx)]
      · rw [List.find?_cons_of_neg _ (by simpa using hx),
          List.find?_cons_of_neg _ (by simpa using hx)]
        exact ih hd.of_cons
  | swap x y l =>
      intro hd
      rw [List.map_cons, List.map_cons] at hd
      have hxy : y.1 ≠ x.1 := by
        have h1 := (List.nodup_cons.mp hd).1
        intro h
        exact h1 (by simp [h])
      by_cases hy : y.1 = c <;> by_cases hx : x.1 = c
      · exact absurd (hy.trans hx.symm) hxy
      · rw [List.find?_cons_of_pos _ (by simpa using hy),
          List.find?_cons_of_neg _ (by simpa using hx),
          List.find?_cons_of_pos _ (by simpa using hy)]
      · rw [List.find?_cons_of_neg _ (by simpa using hy),
          List.find?_cons_of_pos _ (by simpa using hx),
          List.find?_cons_of_pos _ (by simpa using hx)]
      · rw [List.find?_cons_of_neg _ (by simpa using hy),
          List.find?_cons_of_neg _ (by simpa using hx),
          List.find?_cons_of_neg _ (by simpa using hx),
          List.find?_cons_of_neg _ (by simpa using hy)]
  | trans h₁ h₂ ih₁ ih₂ =>
      intro hd
      have hd₂ : _ := ((h₁.map Prod.fst).nodup_iff).mp hd
      exact (ih₁ hd).trans (ih₂ hd₂)

/-- The recorded outcome of each component is insensitive to completion order
when each component reports at most once. -/
lemma outcomeFor_perm (c : Component) {l l' : List (Component × TaskOutcome)}
    (hp : l.Perm l') (hd : (l.map Prod.fst).Nodup) :
    outcomeFor c l = outcomeFor c l' := by
  unfold outcomeFor
  rw [findEntry_perm c hp hd]

/-- If a component did not fail, it contributes no error entry. -/
lemma errorEntry_eq_none {c : Component} {l : List (Component × TaskOutcome)}
    (h : isFailedIn c l = false) : errorEntry c l = none := by
  unfold errorEntry
  unfold isFailedIn at h
  rcases ho : outcomeFor c l with _ | o
  · rfl
  · rw [ho] at h
    cases o with
    | succeeded as => rfl
    | failed f => simp at h

/-- A failed component contributes the error entry built from its failure. -/
lemma errorEntry_eq_some {c : Component} {l : List (Component × TaskOutcome)}
    {f : FailureInfo} (h : outcomeFor c l = some (.failed f)) :
    errorEntry c l = some ⟨c, f.errorCode, f.errorMessage, f.timestamp⟩ := by
  unfold errorEntry
  rw [h]

/-- Mapping the component out of the collected errors yields exactly the failed
components, in the order of the component list walked. -/
lemma filterMap_errorEntry_components (cs : List Component)
    (l : List (Component × TaskOutcome)) :
    ((cs.filterMap (fun c => errorEntry c l)).map GenerationError.component)
      = cs.filter (fun c => isFailedIn c l) := by
  induction cs with
  | nil => rfl
  | cons c cs ih =>
      rw [List.filterMap_cons, List.filter_cons]
      by_cases hf : isFailedIn c l = true
      · unfold isFailedIn at hf
        rcases ho : outcomeFor c l with _ | o
        · rw [ho] at hf; simp at hf
        · rw [ho] at hf
          cases o with
          | succeeded as => simp at hf
          | failed f =>
              rw [errorEntry_eq_some ho]
              have hf' : isFailedIn c l = true := by unfold isFailedIn; rw [ho]
              simp [hf', ih]
      · have hf' : isFailedIn c l = false := by revert hf; cases isFailedIn c l <;> simp
        rw [errorEntry_eq_none hf']
        simp [hf', ih]

/-- Claim C5: the error list contains exactly one `GenerationError` per failed
component — its components are precisely the failed ones among image, video,
text, in that fixed order — and the list does not depend on the order in which
the components completed (any permutation of the completion-ordered outcome
list, with each component reporting at most once, yields the same errors). -/
theorem collectErrors_one_per_failed_in_fixed_order
    (l l' : List (Component × TaskOutcome))
    (hp : l.Perm l') (hd : (l.map Prod.fst).Nodup) :
    collectErrors l = collectErrors l'
      ∧ (collectErrors l).map GenerationError.component
          = orderedComponents.filter (fun c => isFailedIn c l) := by
  constructor
  · have hout : ∀ c, outcomeFor c l = outcomeFor c l' :=
      fun c => outcomeFor_perm c hp hd
    simp [collectErrors, errorEntry, hout]
  · exact filterMap_errorEntry_components orderedComponents l

/-- Claim C5, witness: the sample outcomes, arriving in two different orders,
produce the same error list, whose components are image then video. -/
theorem collectErrors_one_per_failed_witness :
    collectErrors arrivedSample = collectErrors arrivedSampleReordered
      ∧ (collectErrors arrivedSample).map GenerationError.component
          = [Component.image, Component.video] := by
  have h := collectErrors_one_per_failed_in_fixed_order arrivedSample
    arrivedSampleReordered (by decide) (by decide)
  exact ⟨h.1, h.2.trans (by decide)⟩

/-- Claim C10: the simulation-mode generator is deterministic — the returned
string does not depend on the environment (clock) at all, only on the topic and
business type, so two calls with equal inputs return character-identical
strings. -/
theorem generateMarketingCopy_deterministic (e₁ e₂ : SimEnv) (topic businessType : String) :
    (generateMarketingCopy e₁ topic businessType).1
        = (generateMarketingCopy e₂ topic businessType).1
      ∧ (generateMarketingCopy e₁ topic businessType).1 = marketingCopy topic businessType :=
  ⟨rfl, rfl⟩

/-- Claim C4, counterexample: running the text generator in simulation mode
(the model call answered by the repository's own `generateMarketingCopy` mock)
for Instagram yields a hashtag set of exactly 4 tags — fewer than the 5 the
claim requires for Instagram: the 5-10 / 3-5 count ranges are only requested in
the prompt text, never enforced on the parsed result. -/
theorem instagram_hashtag_count_counterexample :
    (generateText (fun _ _ => marketingCopy "Diwali Sale" "Retail")
        "Diwali Sale" ["instagram"]).hashtags
      = [("instagram", ["#DiwaliSale", "#IndianBusiness", "#LocalShop", "#SpecialOffer"])]
      ∧ (["#DiwaliSale", "#IndianBusiness", "#LocalShop", "#SpecialOffer"] : List String).length < 5 := by
  decide

/-- Claim C4, amended: every tag in every hashtag set produced by the text
generator starts with the character `#` (guaranteed by `parseHashtags`, for any
model response); the Instagram 5-10 and LinkedIn 3-5 tag counts are only
requested via the generation prompt and are not enforced by any code. -/
theorem generateText_tags_start_with_hash
    (callClaude : String → String → String) (prompt : String)
    (platforms : List String) (p : String) (tags : List String)
    (hmem : (p, tags) ∈ (generateText callClaude prompt platforms).hashtags)
    (t : String) (ht : t ∈ tags) :
    strStartsWith t "#" = true := by
  simp only [generateText, List.mem_map] at hmem
  obtain ⟨q, hq, heq⟩ := hmem
  have htags : tags = parseHashtags (callClaude (buildHashtagPrompt prompt q) q) :=
    ((Prod.mk.injEq _ _ _ _).mp heq).2.symm
  rw [htags] at ht
  exact (List.mem_filter.mp ht).2

/-- Claim C4, witness: a concrete model response producing two tags, the first
of which the amended theorem certifies to start with `#`. -/
theorem generateText_tags_start_with_hash_witness :
    strStartsWith "#SummerVibes" "#" = true :=
  generateText_tags_start_with_hash (fun _ _ => "#SummerVibes #BeachLife")
    "Summer beach vacation campaign" ["instagram"] "instagram"
    ["#SummerVibes", "#BeachLife"] (by decide) "#SummerVibes" (by decide)

/-- A successful pass of the video retry loop is a successful Bedrock call on
one of the attempts' requests. -/
lemma videoCallLoop_ok (bedrock : VideoRequest → ServiceResult VideoData)
    (prompt : String) (rng : Nat → Nat) :
    ∀ fuel attempt vd, videoCallLoop bedrock prompt rng attempt fuel = .ok vd →
      ∃ k, bedrock (videoRequest prompt (rng k)) = .ok vd := by
  intro fuel
  induction fuel with
  | zero =>
      intro attempt vd h
      simp [videoCallLoop] at h
  | succ n ih =>
      intro attempt vd h
      unfold videoCallLoop at h
      rcases hb : bedrock (videoRequest prompt (rng attempt)) with vd' | e <;> rw [hb] at h
      · exact ⟨attempt, by rw [hb]; injection h with h'; rw [h']⟩
      · have h' : (if 3 ≤ attempt + 1 then ServiceResult.error (α := VideoData) e
            else videoCallLoop bedrock prompt rng (attempt + 1) n) = .ok vd := h
        by_cases hstop : 3 ≤ attempt + 1
        · rw [if_pos hstop] at h'
          exact absurd h' (by simp)
        · rw [if_neg hstop] at h'
          exact ih (attempt + 1) vd h'

/-- A successful `generateVideo` returns the asset built in its success branch:
fixed video key, the supplied fresh identifier, and the extracted duration of
the video data the service returned. -/
lemma generateVideo_ok_fields (bedrock : VideoRequest → ServiceResult VideoData)
    (userId projectId prompt : String) (rng : Nat → Nat) (uuid : Nat)
    (va : VideoAssetRec)
    (h : generateVideo bedrock userId projectId prompt rng uuid = .ok va) :
    va.s3Key = videoKey userId projectId
      ∧ va.assetId = uuid
      ∧ ∃ vd, videoCallLoop bedrock prompt rng 0 3 = .ok vd
          ∧ va.durationSeconds = extractDuration vd := by
  unfold generateVideo at h
  rcases hl : videoCallLoop bedrock prompt rng 0 3 with vd | e <;> rw [hl] at h
  · injection h with h'
    rw [← h']
    exact ⟨rfl, rfl, vd, rfl, rfl⟩
  · exact absurd h (by simp)

/-- Claim C9, counterexample: the code never validates the extracted duration.
A service that returns a 12-second video yields a stored video asset with
`durationSeconds = 12`, outside the required `[3, 10]` range. -/
theorem video_duration_unvalidated_counterexample :
    generateVideo (fun _ => .ok ⟨12⟩) "user-123" "proj-456" "Diwali Sale"
        (fun _ => 0) 7
      = .ok ⟨7, "users/user-123/projects/proj-456/videos/video_0.mp4", 12, "mp4"⟩
      ∧ ¬(12 ≤ 10) := by
  decide

/-- Claim C9, amended: `generateVideo` always requests a `video_length` in
`[3, 10]` (for every seed), and whenever the external service returns a video
whose actual duration equals the requested length, every video asset produced
has `3 ≤ durationSeconds ≤ 10`; the code itself performs no validation of the
extracted duration. -/
theorem generateVideo_duration_range
    (bedrock : VideoRequest → ServiceResult VideoData)
    (userId projectId prompt : String) (rng : Nat → Nat) (uuid : Nat)
    (honest : ∀ req vd, bedrock req = .ok vd → vd.durationSeconds = req.videoLength) :
    (∀ seed, 3 ≤ (videoRequest prompt seed).videoLength
        ∧ (videoRequest prompt seed).videoLength ≤ 10)
      ∧ (∀ va, generateVideo bedrock userId projectId prompt rng uuid = .ok va →
          3 ≤ va.durationSeconds ∧ va.durationSeconds ≤ 10) := by
  have hreq : ∀ seed, 3 ≤ (videoRequest prompt seed).videoLength
      ∧ (videoRequest prompt seed).videoLength ≤ 10 := by
    intro seed
    have hm : seed % 8 < 8 := Nat.mod_lt _ (by norm_num)
    simp only [videoRequest, randomInt]
    omega
  refine ⟨hreq, ?_⟩
  intro va hva
  obtain ⟨-, -, vd, hloop, hdur⟩ :=
    generateVideo_ok_fields bedrock userId projectId prompt rng uuid va hva
  obtain ⟨k, hk⟩ := videoCallLoop_ok bedrock prompt rng 3 0 vd hloop
  have hvd : vd.durationSeconds = (videoRequest prompt (rng k)).videoLength :=
    honest _ _ hk
  have := hreq (rng k)
  rw [hdur, extractDuration, hvd]
  exact this

/-- Claim C9, witness: an honest service answering the requested length; with
seed 5 the request asks for an 8-second video and the stored asset's duration
is 8, inside `[3, 10]`. -/
theorem generateVideo_duration_range_witness :
    3 ≤ (⟨7, "users/user-123/projects/proj-456/videos/video_0.mp4", 8, "mp4"⟩
          : VideoAssetRec).durationSeconds
      ∧ (⟨7, "users/user-123/projects/proj-456/videos/video_0.mp4", 8, "mp4"⟩
          : VideoAssetRec).durationSeconds ≤ 10 :=
  (generateVideo_duration_range (fun req => .ok ⟨req.videoLength⟩)
      "user-123" "proj-456" "Diwali Sale" (fun _ => 5) 7
      (fun _ _ h => by injection h with h'; rw [← h'])).2
    ⟨7, "users/user-123/projects/proj-456/videos/video_0.mp4", 8, "mp4"⟩ (by decide)

/-- String append is associative. -/
lemma strAppend_assoc (a b c : String) : a ++ b ++ c = a ++ (b ++ c) :=
  String.ext (by simp [String.data_append])

/-- Appending a fixed string on the left is injective; in particular two keys of
one project differ as soon as their project-relative parts differ. -/
lemma keyBase_append_injective (u pj : String) :
    Function.Injective (fun s => keyBase u pj ++ s) := by
  intro s t h
  apply String.ext
  have h' := congrArg String.data h
  simp only [String.data_append] at h'
  exact List.append_cancel_left h'

/-- A duplicate-free list of platform tags drawn from instagram/linkedin is one
of five concrete lists. -/
lemma platforms_cases (platforms : List String) (hnd : platforms.Nodup)
    (hsub : ∀ p ∈ platforms, p = "instagram" ∨ p = "linkedin") :
    platforms = [] ∨ platforms = ["instagram"] ∨ platforms = ["linkedin"]
      ∨ platforms = ["instagram", "linkedin"] ∨ platforms = ["linkedin", "instagram"] := by
  rcases platforms with _ | ⟨p, _ | ⟨q, _ | ⟨r, rest⟩⟩⟩
  · exact Or.inl rfl
  · rcases hsub p (by simp) with h | h
    · subst h; exact Or.inr (Or.inl rfl)
    · subst h; exact Or.inr (Or.inr (Or.inl rfl))
  · rcases hsub p (by simp) with h | h <;> rcases hsub q (by simp) with h' | h' <;>
      subst h <;> subst h'
    · exact absurd hnd (by decide)
    · exact Or.inr (Or.inr (Or.inr (Or.inl rfl)))
    · exact Or.inr (Or.inr (Or.inr (Or.inr rfl)))
    · exact absurd hnd (by decide)
  · exfalso
    rcases hsub p (by simp) with h | h <;> rcases hsub q (by simp) with h' | h' <;>
      rcases hsub r (by simp) with h'' | h'' <;> subst h <;> subst h' <;> subst h'' <;>
      simp [List.nodup_cons] at hnd

/-- Claim C7: within one project (3 image variations per platform, each with a
derived thumbnail, plus the video), all storage keys are pairwise distinct —
no key is ever written twice — and the asset identifiers drawn from the fresh
supply are unique, including the video asset's; moreover a successful video
generation stores exactly under the fixed video key with the next fresh
identifier. -/
theorem project_storage_keys_unique
    (userId projectId : String) (platforms : List String) (uuidStart : Nat)
    (hnd : platforms.Nodup)
    (hsub : ∀ p ∈ platforms, p = "instagram" ∨ p = "linkedin") :
    (projectStorageKeys (generateImages userId projectId 3 platforms uuidStart)
        ++ [videoKey userId projectId]).Nodup
      ∧ ((generateImages userId projectId 3 platforms uuidStart).map ImageAssetRec.assetId
          ++ [uuidStart + (generateImages userId projectId 3 platforms uuidStart).length]).Nodup
      ∧ (∀ bedrock rng prompt va,
          generateVideo bedrock userId projectId prompt rng
              (uuidStart + (generateImages userId projectId 3 platforms uuidStart).length)
            = .ok va →
          va.s3Key = videoKey userId projectId
            ∧ va.assetId
                = uuidStart + (generateImages userId projectId 3 platforms uuidStart).length) := by
  have hvid : ∀ (uuid : Nat) bedrock (rng : Nat → Nat) prompt va,
      generateVideo bedrock userId projectId prompt rng uuid = .ok va →
      va.s3Key = videoKey userId projectId ∧ va.assetId = uuid := by
    intro uuid bedrock rng prompt va hva
    have h := generateVideo_ok_fields bedrock userId projectId prompt rng uuid va hva
    exact ⟨h.1, h.2.1⟩
  rcases platforms_cases platforms hnd hsub with h | h | h | h | h <;> subst h
  · refine ⟨?_, ?_, fun bedrock rng prompt va hva => hvid _ bedrock rng prompt va hva⟩
    · exact List.nodup_singleton _
    · exact List.nodup_singleton _
  · refine ⟨?_, ?_, fun bedrock rng prompt va hva => hvid _ bedrock rng prompt va hva⟩
    · have hkeys : projectStorageKeys
            (generateImages userId projectId 3 ["instagram"] uuidStart)
            ++ [videoKey userId projectId]
          = ([imageRelKey "instagram" 0, imageRelKey "instagram" 1,
              imageRelKey "instagram" 2,
              imageRelKey "instagram" 0 ++ "_thumb.png",
              imageRelKey "instagram" 1 ++ "_thumb.png",
              imageRelKey "instagram" 2 ++ "_thumb.png",
              "videos/video_0.mp4"]).map (fun s => keyBase userId projectId ++ s) := by
        have hr : List.range 3 = [0, 1, 2] := rfl
        simp [projectStorageKeys, generateImages, imageKey, videoKey, strAppend_assoc,
          hr, List.flatMap_cons, List.enum, List.enumFrom]
      rw [hkeys]
      exact List.Nodup.map (keyBase_append_injective userId projectId) (by decide)
    · have hids : (generateImages userId projectId 3 ["instagram"] uuidStart).map
            ImageAssetRec.assetId
            ++ [uuidStart
                + (generateImages userId projectId 3 ["instagram"] uuidStart).length]
          = [uuidStart + 0, uuidStart + 1, uuidStart + 2, uuidStart + 3] := rfl
      rw [hids]
      simp [List.nodup_cons]
  · refine ⟨?_, ?_, fun bedrock rng prompt va hva => hvid _ bedrock rng prompt va hva⟩
    · have hkeys : projectStorageKeys
            (generateImages userId projectId 3 ["linkedin"] uuidStart)
            ++ [videoKey userId projectId]
          = ([imageRelKey "linkedin" 0, imageRelKey "linkedin" 1,
              imageRelKey "linkedin" 2,
              imageRelKey "linkedin" 0 ++ "_thumb.png",
              imageRelKey "linkedin" 1 ++ "_thumb.png",
              imageRelKey "linkedin" 2 ++ "_thumb.png",
              "videos/video_0.mp4"]).map (fun s => keyBase userId projectId ++ s) := by
        have hr : List.range 3 = [0, 1, 2] := rfl
        simp [projectStorageKeys, generateImages, imageKey, videoKey, strAppend_assoc,
          hr, List.flatMap_cons, List.enum, List.enumFrom]
      rw [hkeys]
      exact List.Nodup.map (keyBase_append_injective userId projectId) (by decide)
    · have hids : (generateImages userId projectId 3 ["linkedin"] uuidStart).map
            ImageAssetRec.assetId
            ++ [uuidStart
                + (generateImages userId projectId 3 ["linkedin"] uuidStart).length]
          = [uuidStart + 0, uuidStart + 1, uuidStart + 2, uuidStart + 3] := rfl
      rw [hids]
      simp [List.nodup_cons]
  · refine ⟨?_, ?_, fun bedrock rng prompt va hva => hvid _ bedrock rng prompt va hva⟩
    · have hkeys : projectStorageKeys
            (generateImages userId projectId 3 ["instagram", "linkedin"] uuidStart)
            ++ [videoKey userId projectId]
          = ([imageRelKey "instagram" 0, imageRelKey "linkedin" 0,
              imageRelKey "instagram" 1, imageRelKey "linkedin" 1,
              imageRelKey "instagram" 2, imageRelKey "linkedin" 2,
              imageRelKey "instagram" 0 ++ "_thumb.png",
              imageRelKey "linkedin" 0 ++ "_thumb.png",
              imageRelKey "instagram" 1 ++ "_thumb.png",
              imageRelKey "linkedin" 1 ++ "_thumb.png",
              imageRelKey "instagram" 2 ++ "_thumb.png",
              imageRelKey "linkedin" 2 ++ "_thumb.png",
              "videos/video_0.mp4"]).map (fun s => keyBase userId projectId ++ s) := by
        have hr : List.range 3 = [0, 1, 2] := rfl
        simp [projectStorageKeys, generateImages, imageKey, videoKey, strAppend_assoc,
          hr, List.flatMap_cons, List.enum, List.enumFrom]
      rw [hkeys]
      exact List.Nodup.map (keyBase_append_injective userId projectId) (by decide)
    · have hids : (generateImages userId projectId 3 ["instagram", "linkedin"]
            uuidStart).map ImageAssetRec.assetId
            ++ [uuidStart
                + (generateImages userId projectId 3 ["instagram", "linkedin"]
                    uuidStart).length]
          = [uuidStart + 0, uuidStart + 1, uuidStart + 2, uuidStart + 3,
             uuidStart + 4, uuidStart + 5, uuidStart + 6] := rfl
      rw [hids]
      simp [List.nodup_cons]
  · refine ⟨?_, ?_, fun bedrock rng prompt va hva => hvid _ bedrock rng prompt va hva⟩
    · have hkeys : projectStorageKeys
            (generateImages userId projectId 3 ["linkedin", "instagram"] uuidStart)
            ++ [videoKey userId projectId]
          = ([imageRelKey "linkedin" 0, imageRelKey "instagram" 0,
              imageRelKey "linkedin" 1, imageRelKey "instagram" 1,
              imageRelKey "linkedin" 2, imageRelKey "instagram" 2,
              imageRelKey "linkedin" 0 ++ "_thumb.png",
              imageRelKey "instagram" 0 ++ "_thumb.png",
              imageRelKey "linkedin" 1 ++ "_thumb.png",
              imageRelKey "instagram" 1 ++ "_thumb.png",
              imageRelKey "linkedin" 2 ++ "_thumb.png",
              imageRelKey "instagram" 2 ++ "_thumb.png",
              "videos/video_0.mp4"]).map (fun s => keyBase userId projectId ++ s) := by
        have hr : List.range 3 = [0, 1, 2] := rfl
        simp [projectStorageKeys, generateImages, imageKey, videoKey, strAppend_assoc,
          hr, List.flatMap_cons, List.enum, List.enumFrom]
      rw [hkeys]
      exact List.Nodup.map (keyBase_append_injective userId projectId) (by decide)
    · have hids : (generateImages userId projectId 3 ["linkedin", "instagram"]
            uuidStart).map ImageAssetRec.assetId
            ++ [uuidStart
                + (generateImages userId projectId 3 ["linkedin", "instagram"]
                    uuidStart).length]
          = [uuidStart + 0, uuidStart + 1, uuidStart + 2, uuidStart + 3,
             uuidStart + 4, uuidStart + 5, uuidStart + 6] := rfl
      rw [hids]
      simp [List.nodup_cons]

/-- Claim C7, witness: the Instagram+LinkedIn project with supply starting at 0
has pairwise distinct storage keys. -/
theorem project_storage_keys_unique_witness :
    (projectStorageKeys (generateImages "user-123" "proj-456" 3
          ["instagram", "linkedin"] 0)
        ++ [videoKey "user-123" "proj-456"]).Nodup :=
  (project_storage_keys_unique "user-123" "proj-456" ["instagram", "linkedin"] 0
      (by decide) (by decide)).1

end ContentGenie
